import Mathlib

/-!
Shallow embedding of the runtime-host event pipeline and mock query server
of the graph-node repository:
  * `src/thegraph-runtime/src/host.rs` — `RuntimeHost`, `RuntimeHostBuilder`,
    subscription derivation, `take_event_stream`, `data_source_definition`;
  * `src/thegraph/src/mock/server.rs` — `MockGraphQLServer`, `GraphQLService`,
    `GraphQLResponse`;
  * `src/graph/src/components/subgraph/host.rs` — `RuntimeHostEvent`.

Rust panics (`unwrap`, `expect`) in construction paths are embedded as
`Except.error`: the construction does not complete and no value is returned
to the caller. Channels are embedded by identity and capacity; the UUID v4
subscription-id supply is embedded as a counter handing out distinct ids.
-/

/-! ## Data model (dataset definition, from the source's field accesses) -/

/-- An event-handler binding of a mapping: `event_handler.event` is the
event signature the handler is bound to. -/
structure EventHandler where
  handler : String
  event : String
deriving DecidableEq, Repr

/-- The source location of a mapping program (`mapping.source.path`). -/
structure MappingSource where
  path : String
deriving DecidableEq, Repr

/-- A dataset's mapping: program location plus event-handler bindings. -/
structure Mapping where
  source : MappingSource
  event_handlers : List EventHandler
deriving DecidableEq, Repr

/-- The on-chain data of a dataset (`dataset.data.address`). -/
structure DatasetData where
  address : String
deriving DecidableEq, Repr

/-- One configured data source: a contract address plus a mapping. -/
structure Dataset where
  data : DatasetData
  mapping : Mapping
deriving DecidableEq, Repr

/-- A dataset definition; `datasets` is the list of configured data sources. -/
structure DataSourceDefinition where
  datasets : List Dataset
deriving DecidableEq, Repr

/-- Modelled from the spec: `resolve_path` (defined outside the provided
sources) resolves the mapping program location from the definition; only its
result is threaded into the module, no claim depends on its internals. -/
def DataSourceDefinition.resolve_path (_d : DataSourceDefinition) (p : String) : String :=
  p

/-! ## Address parsing (`ethereum_types::Address::from_str`):
a 160-bit value parsed from exactly 40 hexadecimal characters. -/

def isHexDigit (c : Char) : Bool :=
  (decide ('0' ≤ c) && decide (c ≤ '9')) ||
  (decide ('a' ≤ c) && decide (c ≤ 'f')) ||
  (decide ('A' ≤ c) && decide (c ≤ 'F'))

def hexVal (c : Char) : Nat :=
  if decide ('0' ≤ c) && decide (c ≤ '9') then c.toNat - '0'.toNat
  else if decide ('a' ≤ c) && decide (c ≤ 'f') then c.toNat - 'a'.toNat + 10
  else c.toNat - 'A'.toNat + 10

/-- `Address::from_str`: succeeds exactly on strings of 40 hex digits. -/
def parseAddress (s : String) : Option Nat :=
  let cs := s.toList
  if cs.length == 40 && cs.all isHexDigit then
    some (cs.foldl (fun acc c => 16 * acc + hexVal c) 0)
  else
    none

/-! ## RuntimeHostEvent (from `src/graph/src/components/subgraph/host.rs`);
`StoreKey` and `Entity` are modelled from the spec (their definitions live
outside the provided sources). -/

/-- Modelled from the spec: a `StoreKey` uniquely identifies an entity by
(dataset identifier, entity type name, entity id string). -/
structure StoreKey where
  subgraph : String
  entity : String
  id : String
deriving DecidableEq, Repr

/-- Modelled from the spec: an `Entity` is a mapping from attribute name to
a scalar value (values collapsed to strings; no claim inspects them). -/
structure Entity where
  attributes : List (String × String)
deriving DecidableEq, Repr

/-- Events emitted by a runtime host. -/
inductive RuntimeHostEvent where
  | EntitySet (key : StoreKey) (entity : Entity)
  | EntityRemoved (key : StoreKey)
deriving DecidableEq, Repr

/-! ## Channels: embedded by identity and capacity. -/

/-- A bounded mpsc channel, identified by `chanId`, with `capacity` slots. -/
structure EventChannel where
  chanId : Nat
  capacity : Nat
deriving DecidableEq, Repr

/-! ## Subscriptions and the WASM module. -/

/-- `BlockNumberRange { from, to }`. -/
structure BlockNumberRange where
  fromBlock : Option Nat
  toBlock : Option Nat
deriving DecidableEq, Repr

/-- `EthereumEventSubscription`: id, watched address, event signature,
block-number range. -/
structure EthereumEventSubscription where
  subscription_id : Nat
  address : Nat
  event_signature : String
  range : BlockNumberRange
deriving DecidableEq, Repr

/-- The loaded `WasmiModule`: location, data-source id, and the sender end
of the host's outbound event channel (`WasmiModuleConfig.event_sink`). -/
structure WasmiModule where
  location : String
  data_source_id : String
  event_sink : EventChannel
deriving DecidableEq, Repr

/-! ## RuntimeHost -/

/-- `RuntimeHostConfig { data_source_definition }`. -/
structure RuntimeHostConfig where
  data_source_definition : DataSourceDefinition
deriving DecidableEq, Repr

/-- A Rust panic on a construction path, embedded as an error value:
construction does not complete, no host reaches the caller. -/
inductive HostConstructionError where
  | noDataset
  | badAddress
deriving DecidableEq, Repr

/-- The runtime host: configuration, the still-untaken receiver end of the
outbound channel, the loaded module, and the subscriptions registered with
the chain adapter. -/
structure RuntimeHost where
  config : RuntimeHostConfig
  output : Option EventChannel
  module : WasmiModule
  subscriptions : List EthereumEventSubscription
deriving DecidableEq, Repr

/-- The `.map` over `event_handlers` inside `subscribe_to_events`: one
`EthereumEventSubscription` per handler, each with a fresh id from the
supply, the parsed contract address, the handler's event signature, and
`range = BlockNumberRange { from: Some(0), to: None }`. -/
def mkSubscriptions : Nat → Nat → List EventHandler → List EthereumEventSubscription
  | _, _, [] => []
  | n, addr, h :: hs =>
    { subscription_id := n
      address := addr
      event_signature := h.event
      range := { fromBlock := some 0, toBlock := none } } :: mkSubscriptions (n + 1) addr hs

/-- `RuntimeHost::subscribe_to_events`: take the first dataset (`expect`
panics when there is none), parse its contract address (`expect` panics on
failure), build one subscription per event handler and register each with
the chain adapter. -/
def RuntimeHost.subscribe_to_events (idSupply : Nat) (host : RuntimeHost) :
    Except HostConstructionError RuntimeHost :=
  match host.config.data_source_definition.datasets.head? with
  | none => .error .noDataset
  | some dataset =>
    match parseAddress dataset.data.address with
    | none => .error .badAddress
    | some addr =>
      .ok { host with
              subscriptions := mkSubscriptions idSupply addr dataset.mapping.event_handlers }

/-- `RuntimeHost::new`: create the outbound channel with `channel(100)`,
resolve the mapping location from the first dataset (`unwrap` panics when
there is none), load the module with the channel's sender as its event sink,
keep the receiver in `output`, then subscribe to events. -/
def RuntimeHost.new (idSupply : Nat) (config : RuntimeHostConfig) :
    Except HostConstructionError RuntimeHost :=
  let eventChannel : EventChannel := { chanId := 0, capacity := 100 }
  match config.data_source_definition.datasets.head? with
  | none => .error .noDataset
  | some dataset =>
    let location := config.data_source_definition.resolve_path dataset.mapping.source.path
    let module : WasmiModule :=
      { location
        data_source_id := "TODO: DATA SOURCE ID"
        event_sink := eventChannel }
    let host : RuntimeHost :=
      { config
        output := some eventChannel
        module
        subscriptions := [] }
    RuntimeHost.subscribe_to_events idSupply host

/-- `RuntimeHostBuilder`: holds the shared chain-adapter handle and, in this
embedding, the position of the UUID supply. -/
structure RuntimeHostBuilder where
  idSupply : Nat
deriving DecidableEq, Repr

/-- `RuntimeHostBuilder::build`: forwards to `RuntimeHost::new`. -/
def RuntimeHostBuilder.build (b : RuntimeHostBuilder)
    (data_source_definition : DataSourceDefinition) :
    Except HostConstructionError RuntimeHost :=
  RuntimeHost.new b.idSupply { data_source_definition }

/-- `EventProducer::take_event_stream` for `RuntimeHost`: `self.output.take()` —
returns the stored receiver and leaves `None` behind. -/
def RuntimeHost.take_event_stream (h : RuntimeHost) :
    Option EventChannel × RuntimeHost :=
  (h.output, { h with output := none })

/-- `RuntimeHost::data_source_definition`: returns the definition the host
was configured with. -/
def RuntimeHost.data_source_definition (h : RuntimeHost) : DataSourceDefinition :=
  h.config.data_source_definition

/-- Iterate `take_event_stream`, returning the result of the n-th further
call (0-indexed) together with the host state after it. -/
def RuntimeHost.nthTake : Nat → RuntimeHost → Option EventChannel × RuntimeHost
  | 0, h => h.take_event_stream
  | n + 1, h => RuntimeHost.nthTake n h.take_event_stream.2

/-! ## Per-event dispatch (`RuntimeHost::subscribe_to_event`'s closure). -/

/-- A chain event delivered on a subscription's inbound stream. -/
structure EthereumEvent where
  block : Nat
  eventSig : String
  args : List String
deriving DecidableEq, Repr

/-- What handling one chain event does: the log lines written and the
Execution Module invocations performed (handler name, decoded args). -/
structure DispatchResult where
  logs : List String
  moduleInvocations : List (String × List String)
deriving DecidableEq, Repr

/-- The closure passed to `receiver.for_each` in `subscribe_to_event`:
`debug!(logger, "Handle Ethereum event: {:?}", event); Ok(())` — a debug
log entry, and nothing else. -/
def handleChainEvent (e : EthereumEvent) : DispatchResult :=
  { logs := ["Handle Ethereum event: " ++ e.eventSig]
    moduleInvocations := [] }

/-- The outbound `RuntimeHostEvent`s a host produces for a trace of
delivered chain events: only module invocations write to the event sink, so
the emitted trace is the concatenation of the module's output (`run`) over
all invocations performed by dispatch. -/
def hostEmittedEvents (run : String × List String → List RuntimeHostEvent)
    (delivered : List EthereumEvent) : List RuntimeHostEvent :=
  delivered.flatMap (fun e => (handleChainEvent e).moduleInvocations.flatMap run)

/-! ## Mock GraphQL server (`src/thegraph/src/mock/server.rs`). -/

/-- Modelled from the spec: the query server's error type (only the
`InternalError` constructor appears in the provided sources; the description
of an error is the message rendered by its `Display` impl). -/
inductive GraphQLServerError where
  | InternalError (msg : String)
  | Canceled
deriving DecidableEq, Repr

/-- Modelled from the spec: the description of a `GraphQLServerError`, as
rendered into a 500 response body. -/
def GraphQLServerError.description : GraphQLServerError → String
  | .InternalError m => "Internal error: " ++ m
  | .Canceled => "Query was canceled"

/-- A query result as produced by the external query executor; opaque to
the server apart from its debug rendering. -/
structure QueryResult where
  rendered : String
deriving DecidableEq, Repr

/-- An HTTP response: status code and body. -/
structure HttpResponse where
  status : Nat
  body : String
deriving DecidableEq, Repr

/-- HTTP methods distinguished by the service's routing match. -/
inductive HttpMethod where
  | POST
  | GET
  | PUT
  | DELETE
deriving DecidableEq, Repr

/-- `GraphQLResponse::poll`: `Ok(result)` becomes a 200 response carrying
the debug rendering of the result; `Err(e)` becomes a 500 response whose
body is the error's description. -/
def GraphQLResponse.poll (result : Except GraphQLServerError QueryResult) : HttpResponse :=
  match result with
  | .ok r => { status := 200, body := r.rendered }
  | .error e => { status := 500, body := e.description }

/-- `GraphQLService::handle_not_found`: a 404 response with body
"Not found". -/
def GraphQLService.handle_not_found : HttpResponse :=
  { status := 404, body := "Not found" }

/-- `GraphQLService::call` composed with the eventual response future:
`POST /` routes the request to `handle_graphql_query`, whose response is
`GraphQLResponse::poll` of the query result the executor sends back;
everything else routes to `handle_not_found`. -/
def GraphQLService.call (m : HttpMethod) (path : String)
    (result : Except GraphQLServerError QueryResult) : HttpResponse :=
  match m, path with
  | .POST, "/" => GraphQLResponse.poll result
  | _, _ => GraphQLService.handle_not_found

/-- `StreamError` (`common::util::stream`). -/
inductive StreamError where
  | AlreadyCreated
deriving DecidableEq, Repr

/-- The mock GraphQL server's state: the optional query sink, the two event
sinks created in `new`, and the channel-id supply of this embedding. -/
structure MockGraphQLServer where
  query_sink : Option EventChannel
  schema_provider_event_sink : EventChannel
  store_event_sink : EventChannel
  nextChanId : Nat
deriving DecidableEq, Repr

/-- `MockGraphQLServer::new`: creates the store and schema-provider
channels with `channel(100)` and starts with no query sink. -/
def MockGraphQLServer.new : MockGraphQLServer :=
  { query_sink := none
    schema_provider_event_sink := { chanId := 1, capacity := 100 }
    store_event_sink := { chanId := 0, capacity := 100 }
    nextChanId := 2 }

/-- `MockGraphQLServer::query_stream`: when a sink already exists, return
`Err(StreamError::AlreadyCreated)` and change nothing; otherwise create a
fresh `channel(100)`, store its sender and return its receiver. -/
def MockGraphQLServer.query_stream (s : MockGraphQLServer) :
    Except StreamError EventChannel × MockGraphQLServer :=
  match s.query_sink with
  | some _ => (.error .AlreadyCreated, s)
  | none =>
    let ch : EventChannel := { chanId := s.nextChanId, capacity := 100 }
    (.ok ch, { s with query_sink := some ch, nextChanId := s.nextChanId + 1 })

/-- Iterate `query_stream`, returning the result of the n-th further call
(0-indexed) together with the server state after it. -/
def MockGraphQLServer.nthQueryStream :
    Nat → MockGraphQLServer → Except StreamError EventChannel × MockGraphQLServer
  | 0, s => s.query_stream
  | n + 1, s => MockGraphQLServer.nthQueryStream n s.query_stream.2

/-- The server task returned by `serve`: it handles requests through a
clone of the query sink. -/
structure ServerTask where
  sinkUsed : EventChannel
deriving DecidableEq, Repr

/-- `MockGraphQLServer::serve`: with a query sink present, return a server
task using a clone of that sink; with no sink, return
`Err(GraphQLServerError::InternalError(..))`. The sink itself is neither
consumed nor replaced. -/
def MockGraphQLServer.serve (s : MockGraphQLServer) :
    Except GraphQLServerError ServerTask × MockGraphQLServer :=
  match s.query_sink with
  | some ch => (.ok { sinkUsed := ch }, s)
  | none =>
    (.error (.InternalError "No component set up to handle incoming queries"), s)

/-! ## Helper lemmas -/

theorem build_nil (b : RuntimeHostBuilder) (d : DataSourceDefinition)
    (hd : d.datasets = []) : b.build d = .error .noDataset := by
  simp [RuntimeHostBuilder.build, RuntimeHost.new, hd]

theorem build_badAddress (b : RuntimeHostBuilder) (d : DataSourceDefinition)
    (ds : Dataset) (rest : List Dataset)
    (hd : d.datasets = ds :: rest) (ha : parseAddress ds.data.address = none) :
    b.build d = .error .badAddress := by
  simp [RuntimeHostBuilder.build, RuntimeHost.new, RuntimeHost.subscribe_to_events, hd, ha]

theorem build_okAddress (b : RuntimeHostBuilder) (d : DataSourceDefinition)
    (ds : Dataset) (rest : List Dataset) (addr : Nat)
    (hd : d.datasets = ds :: rest) (ha : parseAddress ds.data.address = some addr) :
    b.build d = .ok
      { config := { data_source_definition := d }
        output := some { chanId := 0, capacity := 100 }
        module :=
          { location := ds.mapping.source.path
            data_source_id := "TODO: DATA SOURCE ID"
            event_sink := { chanId := 0, capacity := 100 } }
        subscriptions := mkSubscriptions b.idSupply addr ds.mapping.event_handlers } := by
  simp [RuntimeHostBuilder.build, RuntimeHost.new, RuntimeHost.subscribe_to_events, hd, ha,
        DataSourceDefinition.resolve_path]

theorem build_ok_inv (b : RuntimeHostBuilder) (d : DataSourceDefinition) (h : RuntimeHost)
    (hb : b.build d = .ok h) :
    ∃ ds rest addr, d.datasets = ds :: rest ∧ parseAddress ds.data.address = some addr ∧
      h = { config := { data_source_definition := d }
            output := some { chanId := 0, capacity := 100 }
            module :=
              { location := ds.mapping.source.path
                data_source_id := "TODO: DATA SOURCE ID"
                event_sink := { chanId := 0, capacity := 100 } }
            subscriptions := mkSubscriptions b.idSupply addr ds.mapping.event_handlers } := by
  cases hd : d.datasets with
  | nil => rw [build_nil b d hd] at hb; cases hb
  | cons ds rest =>
    cases ha : parseAddress ds.data.address with
    | none => rw [build_badAddress b d ds rest hd ha] at hb; cases hb
    | some addr =>
      rw [build_okAddress b d ds rest addr hd ha] at hb
      injection hb with hh
      exact ⟨ds, rest, addr, rfl, ha, hh.symm⟩

theorem mkSubscriptions_length (n addr : Nat) (hs : List EventHandler) :
    (mkSubscriptions n addr hs).length = hs.length := by
  induction hs generalizing n with
  | nil => rfl
  | cons h t ih => simp [mkSubscriptions, ih]

theorem mkSubscriptions_get (n addr : Nat) (hs : List EventHandler) (i : Nat)
    (hi : i < (mkSubscriptions n addr hs).length) (hj : i < hs.length) :
    (mkSubscriptions n addr hs).get ⟨i, hi⟩ =
      { subscription_id := n + i
        address := addr
        event_signature := (hs.get ⟨i, hj⟩).event
        range := { fromBlock := some 0, toBlock := none } } := by
  induction hs generalizing n i with
  | nil => exact absurd hj (by simp)
  | cons h t ih =>
    cases i with
    | zero => rfl
    | succ i =>
      have := ih (n + 1) i (by simpa [mkSubscriptions] using hi) (by simpa using hj)
      simpa [mkSubscriptions, Nat.add_assoc, Nat.add_comm 1 i] using this

theorem mkSubscriptions_id_ge (n addr : Nat) (hs : List EventHandler) :
    ∀ s ∈ mkSubscriptions n addr hs, n ≤ s.subscription_id := by
  induction hs generalizing n with
  | nil => intro s hsmem; cases hsmem
  | cons h t ih =>
    intro s hsmem
    rcases List.mem_cons.mp hsmem with h1 | h1
    · exact h1 ▸ Nat.le_refl n
    · exact Nat.le_trans (Nat.le_succ n) (ih (n + 1) s h1)

theorem mkSubscriptions_ids_nodup (n addr : Nat) (hs : List EventHandler) :
    ((mkSubscriptions n addr hs).map (fun s => s.subscription_id)).Nodup := by
  induction hs generalizing n with
  | nil => simp [mkSubscriptions]
  | cons h t ih =>
    simp only [mkSubscriptions, List.map_cons]
    refine List.nodup_cons.mpr ⟨?_, ih (n + 1)⟩
    intro hmem
    rcases List.mem_map.mp hmem with ⟨s, hsmem, hid⟩
    have hge := mkSubscriptions_id_ge (n + 1) addr t s hsmem
    have hid2 : s.subscription_id = n := by simpa using hid
    omega

theorem nthTake_none (n : Nat) (h : RuntimeHost) (hn : h.output = none) :
    (RuntimeHost.nthTake n h).1 = none ∧ (RuntimeHost.nthTake n h).2.output = none := by
  induction n generalizing h with
  | zero => simp [RuntimeHost.nthTake, RuntimeHost.take_event_stream, hn]
  | succ n ih => exact ih _ rfl

theorem nthQueryStream_taken (n : Nat) (s : MockGraphQLServer) (ch : EventChannel)
    (hs : s.query_sink = some ch) :
    MockGraphQLServer.nthQueryStream n s = (.error .AlreadyCreated, s) := by
  have hq : s.query_stream = (.error .AlreadyCreated, s) := by
    simp [MockGraphQLServer.query_stream, hs]
  induction n with
  | zero => simpa [MockGraphQLServer.nthQueryStream] using hq
  | succ n ih => simp [MockGraphQLServer.nthQueryStream, hq]; simpa [hq] using ih

/-! ## Concrete fixtures for witnesses -/

def sampleHandler : EventHandler :=
  { handler := "handleTransfer", event := "Transfer(address,address,uint256)" }

def sampleDataset : Dataset :=
  { data := { address := "0000000000000000000000000000000000000000" }
    mapping := { source := { path := "mapping.wasm" }, event_handlers := [sampleHandler] } }

def sampleDef : DataSourceDefinition := { datasets := [sampleDataset] }

def sampleHost : RuntimeHost :=
  { config := { data_source_definition := sampleDef }
    output := some { chanId := 0, capacity := 100 }
    module :=
      { location := "mapping.wasm"
        data_source_id := "TODO: DATA SOURCE ID"
        event_sink := { chanId := 0, capacity := 100 } }
    subscriptions := mkSubscriptions 0 0 [sampleHandler] }

def emptyHandlerDataset : Dataset :=
  { data := { address := "0000000000000000000000000000000000000000" }
    mapping := { source := { path := "mapping.wasm" }, event_handlers := [] } }

def emptyHandlerDef : DataSourceDefinition := { datasets := [emptyHandlerDataset] }

def emptyHandlerHost : RuntimeHost :=
  { config := { data_source_definition := emptyHandlerDef }
    output := some { chanId := 0, capacity := 100 }
    module :=
      { location := "mapping.wasm"
        data_source_id := "TODO: DATA SOURCE ID"
        event_sink := { chanId := 0, capacity := 100 } }
    subscriptions := [] }

theorem sample_build_ok :
    RuntimeHostBuilder.build { idSupply := 0 } sampleDef = .ok sampleHost := by
  rfl

theorem empty_handler_build_ok :
    RuntimeHostBuilder.build { idSupply := 0 } emptyHandlerDef = .ok emptyHandlerHost := by
  rfl

/-! ## Claim theorems -/

/-- C1: for every valid dataset definition accepted by the builder, the first
call to `take_event_stream` on the freshly built host returns `Some` of the
outbound stream, and every subsequent call on the same host returns `None`,
independently of anything that happens to the first returned stream (the
host retains no connection to it). -/
theorem c1_take_event_stream_exactly_once (b : RuntimeHostBuilder)
    (d : DataSourceDefinition) (h : RuntimeHost) (hb : b.build d = .ok h) :
    (∃ stream, h.take_event_stream.1 = some stream) ∧
    ∀ n, (RuntimeHost.nthTake n h.take_event_stream.2).1 = none := by
  obtain ⟨ds, rest, addr, hd, ha, hh⟩ := build_ok_inv b d h hb
  subst hh
  exact ⟨⟨_, rfl⟩, fun n => (nthTake_none n _ rfl).1⟩

/-- Witness for C1: a concrete one-handler dataset definition; the first
take yields the stream and the third further call still yields `None`. -/
theorem c1_witness :
    (∃ stream, sampleHost.take_event_stream.1 = some stream) ∧
    (RuntimeHost.nthTake 2 sampleHost.take_event_stream.2).1 = none :=
  ⟨(c1_take_event_stream_exactly_once { idSupply := 0 } sampleDef sampleHost (by rfl)).1,
   (c1_take_event_stream_exactly_once { idSupply := 0 } sampleDef sampleHost (by rfl)).2 2⟩

/-- C2 (amended): for every chain event delivered on a subscription's
inbound stream, the host only writes a debug log entry; it performs no
Execution Module invocation. -/
theorem c2_dispatch_only_logs (e : EthereumEvent) :
    (handleChainEvent e).moduleInvocations = [] ∧ (handleChainEvent e).logs ≠ [] := by
  simp [handleChainEvent]

/-- C2 counterexample: the chain event at block 10 with signature
`Transfer(address,address,uint256)` is handled with zero module
invocations, refuting the claim that every delivered chain event results
in an invocation of the bound handler. -/
theorem c2_no_invocation_counterexample :
    (handleChainEvent
        { block := 10, eventSig := "Transfer(address,address,uint256)", args := ["0xabc"] }
      ).moduleInvocations = [] := rfl

/-- C3: a dataset definition with an empty data-source list, or whose first
data source's contract address does not parse, makes host construction fail
without producing a `RuntimeHost`. -/
theorem c3_build_fails_on_invalid_config (b : RuntimeHostBuilder)
    (d : DataSourceDefinition)
    (hbad : d.datasets = [] ∨
      ∃ ds rest, d.datasets = ds :: rest ∧ parseAddress ds.data.address = none) :
    ∃ e, b.build d = .error e := by
  rcases hbad with hnil | ⟨ds, rest, hd, ha⟩
  · exact ⟨_, build_nil b d hnil⟩
  · exact ⟨_, build_badAddress b d ds rest hd ha⟩

/-- Witness for C3: the empty dataset definition is rejected. -/
theorem c3_witness :
    ∃ e, RuntimeHostBuilder.build { idSupply := 0 } { datasets := [] } = .error e :=
  c3_build_fails_on_invalid_config { idSupply := 0 } { datasets := [] } (Or.inl rfl)

/-- C4: on successful construction, the host carries exactly one
subscription per declared event handler of the first data source, each with
the parsed contract address, the handler's event signature, the block range
`from = Some 0, to = None`, and pairwise distinct fresh subscription ids. -/
theorem c4_one_subscription_per_handler (b : RuntimeHostBuilder)
    (d : DataSourceDefinition) (ds : Dataset) (addr : Nat) (h : RuntimeHost)
    (hd : d.datasets.head? = some ds)
    (ha : parseAddress ds.data.address = some addr)
    (hb : b.build d = .ok h) :
    h.subscriptions.length = ds.mapping.event_handlers.length ∧
    (∀ i (hi : i < h.subscriptions.length) (hj : i < ds.mapping.event_handlers.length),
      (h.subscriptions.get ⟨i, hi⟩).address = addr ∧
      (h.subscriptions.get ⟨i, hi⟩).event_signature =
        (ds.mapping.event_handlers.get ⟨i, hj⟩).event ∧
      (h.subscriptions.get ⟨i, hi⟩).range = { fromBlock := some 0, toBlock := none }) ∧
    (h.subscriptions.map fun s => s.subscription_id).Nodup := by
  obtain ⟨ds2, rest, addr2, hd2, ha2, hh⟩ := build_ok_inv b d h hb
  have hds : ds2 = ds := by rw [hd2] at hd; simpa using hd
  subst hds
  have haddr : addr2 = addr := by
    have := ha2.symm.trans ha
    injection this
  subst haddr hh
  refine ⟨mkSubscriptions_length _ _ _, fun i hi hj => ?_, mkSubscriptions_ids_nodup _ _ _⟩
  rw [mkSubscriptions_get _ _ _ i hi hj]
  exact ⟨rfl, rfl, rfl⟩

/-- Witness for C4: the concrete one-handler dataset yields one
subscription with distinct ids. -/
theorem c4_witness :
    sampleHost.subscriptions.length = sampleDataset.mapping.event_handlers.length ∧
    (sampleHost.subscriptions.map fun s => s.subscription_id).Nodup :=
  ⟨(c4_one_subscription_per_handler { idSupply := 0 } sampleDef sampleDataset 0 sampleHost
      rfl (by rfl) (by rfl)).1,
   (c4_one_subscription_per_handler { idSupply := 0 } sampleDef sampleDataset 0 sampleHost
      rfl (by rfl) (by rfl)).2.2⟩

/-- C5: on a fresh `MockGraphQLServer`, the first `query_stream` call
returns `Ok` with a fresh receiver stored as the sink; every subsequent
call returns `Err(StreamError.AlreadyCreated)` without altering the stored
sink (so the first caller's receiver stays valid), and no code path
panics. -/
theorem c5_query_stream_exactly_once :
    (∃ ch, MockGraphQLServer.new.query_stream.1 = .ok ch ∧
      MockGraphQLServer.new.query_stream.2.query_sink = some ch) ∧
    ∀ n,
      (MockGraphQLServer.nthQueryStream n MockGraphQLServer.new.query_stream.2).1 =
        .error .AlreadyCreated ∧
      (MockGraphQLServer.nthQueryStream n MockGraphQLServer.new.query_stream.2).2.query_sink =
        MockGraphQLServer.new.query_stream.2.query_sink := by
  constructor
  · exact ⟨_, rfl, rfl⟩
  · intro n
    have h := nthQueryStream_taken n MockGraphQLServer.new.query_stream.2
      { chanId := 2, capacity := 100 } rfl
    exact ⟨by rw [h], by rw [h]⟩

/-- C6: `POST /` with an `Ok` query result yields status 200; `POST /`
with an `Err` result yields status 500 with the error's description as
body; any other method or route yields the 404 response. -/
theorem c6_graphql_http_status (m : HttpMethod) (p : String) (r : QueryResult)
    (e : GraphQLServerError) (res : Except GraphQLServerError QueryResult)
    (hother : m ≠ HttpMethod.POST ∨ p ≠ "/") :
    GraphQLService.call .POST "/" (.ok r) = { status := 200, body := r.rendered } ∧
    GraphQLService.call .POST "/" (.error e) = { status := 500, body := e.description } ∧
    GraphQLService.call m p res = GraphQLService.handle_not_found := by
  refine ⟨rfl, rfl, ?_⟩
  unfold GraphQLService.call
  split
  · rcases hother with hm | hp
    · exact absurd rfl hm
    · exact absurd rfl hp
  · rfl

/-- Witness for C6: a successful POST query gets 200; a GET to the same
path gets the 404 response. -/
theorem c6_witness :
    GraphQLService.call .POST "/" (.ok { rendered := "QueryResult" }) =
      { status := 200, body := "QueryResult" } ∧
    GraphQLService.call .GET "/" (.ok { rendered := "QueryResult" }) =
      GraphQLService.handle_not_found :=
  ⟨(c6_graphql_http_status .GET "/" { rendered := "QueryResult" } .Canceled
      (.ok { rendered := "QueryResult" }) (Or.inl (by decide))).1,
   (c6_graphql_http_status .GET "/" { rendered := "QueryResult" } .Canceled
      (.ok { rendered := "QueryResult" }) (Or.inl (by decide))).2.2⟩

/-- C7: a dataset whose first data source declares zero event handlers
builds a host with zero registered subscriptions; the module still holds
the sender of the outbound channel (the stream stays open), and no
`RuntimeHostEvent` is ever emitted for any trace of delivered chain
events. -/
theorem c7_zero_handlers_zero_subscriptions (b : RuntimeHostBuilder)
    (d : DataSourceDefinition) (ds : Dataset) (h : RuntimeHost)
    (hd : d.datasets.head? = some ds)
    (hh0 : ds.mapping.event_handlers = [])
    (hb : b.build d = .ok h) :
    h.subscriptions = [] ∧
    h.output = some h.module.event_sink ∧
    ∀ run delivered, hostEmittedEvents run delivered = [] := by
  obtain ⟨ds2, rest, addr, hd2, ha, hh⟩ := build_ok_inv b d h hb
  have hds : ds2 = ds := by rw [hd2] at hd; simpa using hd
  subst hds hh
  refine ⟨?_, rfl, ?_⟩
  · rw [hh0]; rfl
  · intro run delivered
    simp [hostEmittedEvents, handleChainEvent]

/-- Witness for C7: the concrete zero-handler dataset builds a host with
no subscriptions and an empty emitted trace. -/
theorem c7_witness :
    emptyHandlerHost.subscriptions = [] ∧
    hostEmittedEvents (fun _ => [])
      [{ block := 10, eventSig := "Transfer(address,address,uint256)", args := [] }] = [] :=
  ⟨(c7_zero_handlers_zero_subscriptions { idSupply := 0 } emptyHandlerDef emptyHandlerDataset
      emptyHandlerHost rfl rfl (by rfl)).1,
   (c7_zero_handlers_zero_subscriptions { idSupply := 0 } emptyHandlerDef emptyHandlerDataset
      emptyHandlerHost rfl rfl (by rfl)).2.2 _ _⟩

/-- C8: every successfully built host has one outbound channel of capacity
exactly 100, whose sender is the module's event sink and whose receiver is
stored in `output` and is exactly what `take_event_stream` returns. -/
theorem c8_outbound_channel_capacity (b : RuntimeHostBuilder)
    (d : DataSourceDefinition) (h : RuntimeHost) (hb : b.build d = .ok h) :
    h.module.event_sink.capacity = 100 ∧
    h.output = some h.module.event_sink ∧
    h.take_event_stream.1 = some h.module.event_sink := by
  obtain ⟨ds, rest, addr, hd, ha, hh⟩ := build_ok_inv b d h hb
  subst hh
  exact ⟨rfl, rfl, rfl⟩

/-- Witness for C8 at the concrete one-handler dataset. -/
theorem c8_witness :
    sampleHost.module.event_sink.capacity = 100 ∧
    sampleHost.output = some sampleHost.module.event_sink ∧
    sampleHost.take_event_stream.1 = some sampleHost.module.event_sink :=
  c8_outbound_channel_capacity { idSupply := 0 } sampleDef sampleHost (by rfl)

/-- C9: the host built for a dataset definition returns exactly that
definition from `data_source_definition`; the accessor is a pure
projection (no side effects, always succeeds). -/
theorem c9_data_source_definition_returns_built (b : RuntimeHostBuilder)
    (d : DataSourceDefinition) (h : RuntimeHost) (hb : b.build d = .ok h) :
    h.data_source_definition = d := by
  obtain ⟨ds, rest, addr, hd, ha, hh⟩ := build_ok_inv b d h hb
  subst hh
  rfl

/-- Witness for C9 at the concrete one-handler dataset. -/
theorem c9_witness : sampleHost.data_source_definition = sampleDef :=
  c9_data_source_definition_returns_built { idSupply := 0 } sampleDef sampleHost (by rfl)

/-- C10: `serve` returns `Err(InternalError(..))` exactly when no query
sink is present (query_stream has not been taken), returns `Ok` with a
server task using a clone of the sink when one is, and never consumes or
replaces the sink (the server state is unchanged). -/
theorem c10_serve_requires_query_sink (s : MockGraphQLServer) :
    (s.query_sink = none →
      s.serve.1 = .error (.InternalError "No component set up to handle incoming queries")) ∧
    (∀ ch, s.query_sink = some ch → s.serve.1 = .ok { sinkUsed := ch }) ∧
    s.serve.2 = s := by
  refine ⟨fun hn => ?_, fun ch hc => ?_, ?_⟩
  · simp [MockGraphQLServer.serve, hn]
  · simp [MockGraphQLServer.serve, hc]
  · cases hq : s.query_sink <;> simp [MockGraphQLServer.serve, hq]

/-- Witness for C10: a fresh server refuses to serve; after taking the
query stream, serving succeeds. -/
theorem c10_witness :
    MockGraphQLServer.new.serve.1 =
      .error (.InternalError "No component set up to handle incoming queries") ∧
    MockGraphQLServer.new.query_stream.2.serve.1 =
      .ok { sinkUsed := { chanId := 2, capacity := 100 } } :=
  ⟨(c10_serve_requires_query_sink MockGraphQLServer.new).1 rfl,
   (c10_serve_requires_query_sink MockGraphQLServer.new.query_stream.2).2.1
      { chanId := 2, capacity := 100 } rfl⟩
